import Mathlib

/-!
Shallow embedding of the data model and persistence layer of
`src/oop.py` (YouTube Channel & Playlist Manager).

JSON documents are modelled as an inductive value type (`Json`); files on
disk are modelled as `FileInput` (missing / syntactically malformed /
parsed content), and for the line-delimited per-playlist format as an
optional list of `Line`s.  Python exceptions are modelled with `Except`
(for pure decoders) or with a `Playlist × Option Err` / `Channel × Option Err`
result (for loaders that mutate state before the failure point, which is
exactly what the source does).

Modelling restrictions (all unreachable from the documents this program
itself writes): channel and playlist names and video titles are JSON
strings, `plID` is a JSON integer, and iteration requires a JSON array;
Python would accept other value types in those positions.
-/

/-- JSON values, as produced by `json.load` (only the constructors this
program touches are needed; JSON numbers appearing in these documents are
integers). -/
inductive Json where
  | null : Json
  | bool (b : Bool) : Json
  | int (n : Int) : Json
  | str (s : String) : Json
  | arr (items : List Json) : Json
  | obj (fields : List (String × Json)) : Json

/-- The distinguishable Python error conditions raised by the core. -/
inductive Err where
  | keyError (key : String) : Err
  | typeError : Err
  | valueError : Err
  | ioError : Err
  | indexError : Err
  | formatError : Err
deriving Repr, DecidableEq

/-- Key lookup in a parsed JSON object (Python dict access by key). -/
def jlookup (key : String) : List (String × Json) → Option Json
  | [] => none
  | (k, v) :: rest => if k = key then some v else jlookup key rest

/-- Python `d[key]`: the value, or a `KeyError`. -/
def getItem (d : List (String × Json)) (key : String) : Except Err Json :=
  match jlookup key d with
  | some v => Except.ok v
  | none => Except.error (Err.keyError key)

/-- Extraction of a JSON string (model restriction, see module header). -/
def asStr : Json → Except Err String
  | Json.str s => Except.ok s
  | _ => Except.error Err.typeError

/-- Extraction of a JSON integer without conversion (model restriction). -/
def asInt : Json → Except Err Int
  | Json.int n => Except.ok n
  | _ => Except.error Err.typeError

/-- Iteration over a JSON array (model restriction for other values). -/
def asArr : Json → Except Err (List Json)
  | Json.arr xs => Except.ok xs
  | _ => Except.error Err.typeError

/-- Python `int(x)` on a JSON value: identity on integers, `True`/`False`
become 1/0, strings are parsed (after stripping whitespace) or raise
`ValueError`, anything else raises `TypeError`. -/
def pyInt : Json → Except Err Int
  | Json.int n => Except.ok n
  | Json.bool b => Except.ok (if b then 1 else 0)
  | Json.str s =>
      match s.trim.toInt? with
      | some n => Except.ok n
      | none => Except.error Err.valueError
  | _ => Except.error Err.typeError

/-- Left-to-right decoding of a list, stopping at the first failure
(the Python `for` loop / list comprehension over decoded records). -/
def mapDecode (f : Json → Except Err α) : List Json → Except Err (List α)
  | [] => Except.ok []
  | j :: rest =>
      match f j with
      | Except.error e => Except.error e
      | Except.ok a =>
          match mapDecode f rest with
          | Except.error e => Except.error e
          | Except.ok as => Except.ok (a :: as)

/-- `@dataclass Video` of `src/oop.py`: title, duration (seconds), views. -/
structure Video where
  title : String
  duration : Int
  views : Int
deriving Repr, DecidableEq

/-- `Video.__str__`: `divmod(duration, 60)` (floor division, which for the
positive divisor 60 coincides with the Euclidean division used here),
then
`"{mins}m{secs}s"` when `mins` is truthy, else `"{secs}s"`, assembled as
`"{title} — {dur} — {views} views"`. -/
def Video.str (v : Video) : String :=
  let mins := v.duration / 60
  let secs := v.duration % 60
  let dur := if mins = 0 then toString secs ++ "s"
             else toString mins ++ "m" ++ toString secs ++ "s"
  v.title ++ " — " ++ dur ++ " — " ++ toString v.views ++ " views"

/-- `dataclasses.asdict(v)`: the JSON object with the three named fields
in declaration order. -/
def Video.asdict (v : Video) : Json :=
  Json.obj [("title", Json.str v.title),
            ("duration", Json.int v.duration),
            ("views", Json.int v.views)]

/-- The record decoder `Video(data['title'], int(data['duration']),
int(data['views']))` shared by `Playlist.load_playlist_from_file` and
`Playlist.from_dict`, arguments evaluated left to right. -/
def Video.decode (j : Json) : Except Err Video :=
  match j with
  | Json.obj d =>
      match getItem d "title" with
      | Except.error e => Except.error e
      | Except.ok tJ =>
          match asStr tJ with
          | Except.error e => Except.error e
          | Except.ok title =>
              match getItem d "duration" with
              | Except.error e => Except.error e
              | Except.ok dJ =>
                  match pyInt dJ with
                  | Except.error e => Except.error e
                  | Except.ok duration =>
                      match getItem d "views" with
                      | Except.error e => Except.error e
                      | Except.ok vJ =>
                          match pyInt vJ with
                          | Except.error e => Except.error e
                          | Except.ok views => Except.ok ⟨title, duration, views⟩
  | _ => Except.error Err.typeError

/-- `class Playlist`: name, numeric id, ordered video sequence. -/
structure Playlist where
  playListName : String
  plID : Int
  videos : List Video
deriving Repr, DecidableEq

/-- `Playlist.add_video`: append to the end of the sequence. -/
def Playlist.add_video (pl : Playlist) (v : Video) : Playlist :=
  { pl with videos := pl.videos ++ [v] }

/-- `Playlist.remove_video`: delete at `index` only when
`0 <= index < len(self.videos)`; otherwise do nothing (and in either case
raise nothing — the function is total). -/
def Playlist.remove_video (pl : Playlist) (index : Int) : Playlist :=
  if 0 ≤ index ∧ index < (pl.videos.length : Int) then
    { pl with videos := pl.videos.eraseIdx index.toNat }
  else pl

/-- One line of a per-playlist text file: blank, a line that parses as a
JSON value, or a line that is not valid JSON. -/
inductive Line where
  | blank : Line
  | record (j : Json) : Line
  | bad : Line

/-- `Playlist.save_playlist_to_file`: one `json.dumps(asdict(v))` line per
video, in sequence order (the written file, as its parsed lines). -/
def Playlist.save_playlist_to_file (pl : Playlist) : List Line :=
  pl.videos.map (fun v => Line.record v.asdict)

/-- The line loop of `load_playlist_from_file`: skip blank lines, decode
each record appending as it goes; on the first bad line or undecodable
record stop with the videos accumulated so far and the error. -/
def loadLines : List Line → List Video → List Video × Option Err
  | [], acc => (acc, none)
  | Line.blank :: rest, acc => loadLines rest acc
  | Line.bad :: _, acc => (acc, some Err.formatError)
  | Line.record j :: rest, acc =>
      match Video.decode j with
      | Except.error e => (acc, some e)
      | Except.ok v => loadLines rest (acc ++ [v])

/-- `Playlist.load_playlist_from_file`: `self.videos = []` executes before
`open`, so a missing file leaves the sequence empty; otherwise the lines
are decoded one at a time into `self.videos`, and a failure part-way
leaves the successfully decoded prefix in place together with the raised
error. -/
def Playlist.load_playlist_from_file (pl : Playlist) (file : Option (List Line)) :
    Playlist × Option Err :=
  match file with
  | none => ({ pl with videos := [] }, some Err.ioError)
  | some lines =>
      let r := loadLines lines []
      ({ pl with videos := r.1 }, r.2)

/-- `Playlist.to_dict`: `{"playListName": ..., "plID": ..., "videos": [...]}`. -/
def Playlist.to_dict (pl : Playlist) : Json :=
  Json.obj [("playListName", Json.str pl.playListName),
            ("plID", Json.int pl.plID),
            ("videos", Json.arr (pl.videos.map Video.asdict))]

/-- `Playlist.from_dict`: `d['playListName']` and `d['plID']` raise
`KeyError` when absent; `d.get('videos', [])` defaults to the empty list;
each video record is decoded in order. -/
def Playlist.from_dict (j : Json) : Except Err Playlist :=
  match j with
  | Json.obj d =>
      match getItem d "playListName" with
      | Except.error e => Except.error e
      | Except.ok nmJ =>
          match asStr nmJ with
          | Except.error e => Except.error e
          | Except.ok nm =>
              match getItem d "plID" with
              | Except.error e => Except.error e
              | Except.ok idJ =>
                  match asInt idJ with
                  | Except.error e => Except.error e
                  | Except.ok plid =>
                      match asArr (match jlookup "videos" d with
                                   | some v => v
                                   | none => Json.arr []) with
                      | Except.error e => Except.error e
                      | Except.ok vs =>
                          match mapDecode Video.decode vs with
                          | Except.error e => Except.error e
                          | Except.ok videos => Except.ok ⟨nm, plid, videos⟩
  | _ => Except.error Err.typeError

/-- `class Channel`: mutable name and ordered playlist sequence. -/
structure Channel where
  name : String
  playlists : List Playlist
deriving Repr, DecidableEq

/-- `Channel.add_playlist`: append to the end of the sequence. -/
def Channel.add_playlist (ch : Channel) (pl : Playlist) : Channel :=
  { ch with playlists := ch.playlists ++ [pl] }

/-- Python `str.lower()`, modelled on the character sequence (ASCII case
mapping, which is all the mapping `Char.toLower` performs). -/
def pyLower (s : String) : String := ⟨s.data.map Char.toLower⟩

/-- The scan loop of `Channel.search_playlist` over the playlist sequence,
with the query already lowercased. -/
def searchLoop : List Playlist → String → Option Playlist
  | [], _ => none
  | pl :: rest, q =>
      if pyLower pl.playListName = q then some pl else searchLoop rest q

/-- `Channel.search_playlist`: lowercase the query, return the first
playlist whose lowercased name equals it, else `None`. -/
def Channel.search_playlist (ch : Channel) (name : String) : Option Playlist :=
  searchLoop ch.playlists (pyLower name)

/-- `Channel.to_json`: the whole-channel document
`{"name": ..., "playlists": [...]}` as written by `json.dump`. -/
def Channel.to_json (ch : Channel) : Json :=
  Json.obj [("name", Json.str ch.name),
            ("playlists", Json.arr (ch.playlists.map Playlist.to_dict))]

/-- A file as an input to a loader: missing on disk, present but not
syntactically valid JSON, or a successfully parsed document. -/
inductive FileInput (α : Type) where
  | missing : FileInput α
  | malformed : FileInput α
  | content (a : α) : FileInput α

/-- `obj.get('name', self.name)`: the current name when the key is absent
(`dict.get` itself never raises; the error branch is the model restriction
to string names). -/
def getNameField (d : List (String × Json)) (cur : String) : Except Err String :=
  match jlookup "name" d with
  | some v => asStr v
  | none => Except.ok cur

/-- `obj.get('playlists', [])` as the list to iterate over: absent means
empty, present must be an array (model restriction). -/
def getPlaylistsField (d : List (String × Json)) : Except Err (List Json) :=
  match jlookup "playlists" d with
  | some v => asArr v
  | none => Except.ok []

/-- `Channel.load_json`: `json.load` parses the whole document first (a
missing file or malformed document raises before any assignment); then
`self.name` is assigned from `obj.get('name', self.name)`, and only then
is the playlist list decoded — so a record-decode failure leaves the new
name in place with the old playlist sequence. -/
def Channel.load_json (ch : Channel) (file : FileInput Json) : Channel × Option Err :=
  match file with
  | FileInput.missing => (ch, some Err.ioError)
  | FileInput.malformed => (ch, some Err.formatError)
  | FileInput.content (Json.obj d) =>
      match getNameField d ch.name with
      | Except.error e => (ch, some e)
      | Except.ok nm =>
          match getPlaylistsField d with
          | Except.error e => ({ ch with name := nm }, some e)
          | Except.ok ds =>
              match mapDecode Playlist.from_dict ds with
              | Except.error e => ({ ch with name := nm }, some e)
              | Except.ok pls => ({ ch with name := nm, playlists := pls }, none)
  | FileInput.content _ => (ch, some Err.typeError)

/-- Python `del lst[i]`: delete at `i` when `0 <= i < len`, at `i + len`
when `-len <= i < 0`, otherwise raise `IndexError`. -/
def pyDelete (l : List α) (i : Int) : Except Err (List α) :=
  if 0 ≤ i ∧ i < (l.length : Int) then Except.ok (l.eraseIdx i.toNat)
  else if -(l.length : Int) ≤ i ∧ i < 0 then
    Except.ok (l.eraseIdx (i + l.length).toNat)
  else Except.error Err.indexError

/-- `App.delete_playlist`: with no selection it shows a message and
returns (no state change); with a selected index it executes
`del self.channel.playlists[idx]` with no bounds check of its own. -/
def App.delete_playlist (ch : Channel) (sel : Option Int) : Except Err Channel :=
  match sel with
  | none => Except.ok ch
  | some idx =>
      match pyDelete ch.playlists idx with
      | Except.ok l => Except.ok { ch with playlists := l }
      | Except.error e => Except.error e

/-! ## Helper lemmas -/

/-- Decoding the record written for a video recovers the video. -/
theorem decode_asdict (v : Video) : Video.decode v.asdict = Except.ok v := rfl

/-- Decoding a list of written video records recovers the video list. -/
theorem mapDecode_asdict (vs : List Video) :
    mapDecode Video.decode (vs.map Video.asdict) = Except.ok vs := by
  induction vs with
  | nil => rfl
  | cons v rest ih => simp [List.map_cons, mapDecode, decode_asdict, ih]

/-- Decoding the document written for a playlist recovers the playlist. -/
theorem from_dict_to_dict (pl : Playlist) :
    Playlist.from_dict pl.to_dict = Except.ok pl := by
  simp [Playlist.to_dict, Playlist.from_dict, getItem, jlookup, asStr, asInt,
    asArr, mapDecode_asdict]

/-- Decoding a list of written playlist documents recovers the playlists. -/
theorem mapDecode_to_dict (pls : List Playlist) :
    mapDecode Playlist.from_dict (pls.map Playlist.to_dict) = Except.ok pls := by
  induction pls with
  | nil => rfl
  | cons pl rest ih => simp [List.map_cons, mapDecode, from_dict_to_dict, ih]

/-- The line loop consumes a prefix of well-formed video records by
appending them to the accumulator. -/
theorem loadLines_records_append (vs : List Video) (acc : List Video) (rest : List Line) :
    loadLines ((vs.map fun v => Line.record v.asdict) ++ rest) acc
      = loadLines rest (acc ++ vs) := by
  induction vs generalizing acc with
  | nil => simp
  | cons v tl ih =>
      simp only [List.map_cons, List.cons_append, loadLines, decode_asdict,
        List.append_eq]
      rw [ih (acc ++ [v])]
      simp

/-! ## C1, C3, C4 -/

/-- C1: for every channel (name with ordered playlists, each carrying a
name, an id and an ordered video sequence), `Channel.to_json` followed by
`Channel.load_json` on the produced document reproduces the channel name
and the full playlist sequence, in order, whatever the prior state of the
loading channel was. -/
theorem C1_channel_document_roundtrip (ch ch₀ : Channel) :
    Channel.load_json ch₀ (FileInput.content ch.to_json)
      = ({ name := ch.name, playlists := ch.playlists }, none) := by
  simp [Channel.load_json, Channel.to_json, getNameField, getPlaylistsField,
    jlookup, asStr, asArr, mapDecode_to_dict]

/-- C3: encoding a video to its three-field record and decoding the record
back yields a video with the same title, duration and views. -/
theorem C3_video_record_roundtrip (v : Video) :
    Video.decode v.asdict = Except.ok v := rfl

/-- C4: saving a playlist to its line-delimited file and loading that file
into a fresh playlist with the same name and id reproduces exactly the
original video sequence, in order. -/
theorem C4_playlist_file_roundtrip (pl : Playlist) :
    Playlist.load_playlist_from_file ⟨pl.playListName, pl.plID, []⟩
        (some pl.save_playlist_to_file)
      = (pl, none) := by
  simp [Playlist.load_playlist_from_file, Playlist.save_playlist_to_file]
  rw [show pl.videos.map (fun v => Line.record v.asdict)
        = (pl.videos.map fun v => Line.record v.asdict) ++ [] by simp,
    loadLines_records_append]
  simp [loadLines]

/-! ## C2 -/

/-- C2 counterexample: a failed load is claimed to leave prior state
entirely unchanged, but `Playlist.load_playlist_from_file` on a missing
file signals the error after having already cleared the video sequence. -/
theorem C2_load_failure_counterexample :
    (Playlist.load_playlist_from_file ⟨"p", 1, [⟨"t", 10, 5⟩]⟩ none).2 = some Err.ioError
    ∧ (Playlist.load_playlist_from_file ⟨"p", 1, [⟨"t", 10, 5⟩]⟩ none).1.videos
        ≠ [⟨"t", 10, 5⟩] :=
  ⟨rfl, by decide⟩

/-- C2 (amended): `Channel.load_json` is all-or-nothing only up to the
parse stage — a missing file or malformed document leaves the channel
unchanged, while a document whose playlist records fail to decode has
already replaced the name (keeping the old playlists).
`Playlist.load_playlist_from_file` clears the video sequence before
reading, so a failed load leaves exactly the records decoded before the
failure — empty when the file is missing. -/
theorem C2_load_failure_partial_state (ch : Channel) (pl : Playlist) :
    Channel.load_json ch FileInput.missing = (ch, some Err.ioError)
    ∧ Channel.load_json ch FileInput.malformed = (ch, some Err.formatError)
    ∧ Playlist.load_playlist_from_file pl none
        = ({ pl with videos := [] }, some Err.ioError)
    ∧ (∀ vs rest, Playlist.load_playlist_from_file pl
          (some ((vs.map fun v => Line.record v.asdict) ++ Line.bad :: rest))
        = ({ pl with videos := vs }, some Err.formatError))
    ∧ (∀ fields nm pls e, jlookup "name" fields = some (Json.str nm) →
        jlookup "playlists" fields = some (Json.arr pls) →
        mapDecode Playlist.from_dict pls = Except.error e →
        Channel.load_json ch (FileInput.content (Json.obj fields))
          = ({ ch with name := nm }, some e)) := by
  refine ⟨rfl, rfl, rfl, ?_, ?_⟩
  · intro vs rest
    simp [Playlist.load_playlist_from_file, loadLines_records_append, loadLines]
  · intro fields nm pls e h1 h2 h3
    simp [Channel.load_json, getNameField, getPlaylistsField, h1, h2, h3, asStr, asArr]

/-- C2 witness: the amended statement evaluated at concrete states and
documents. -/
theorem C2_load_failure_witness :
    Channel.load_json ⟨"c", []⟩ FileInput.missing = (⟨"c", []⟩, some Err.ioError)
    ∧ Playlist.load_playlist_from_file ⟨"p", 1, [⟨"t", 10, 5⟩]⟩
          (some [Line.record (Video.asdict ⟨"a", 1, 2⟩), Line.bad])
        = (⟨"p", 1, [⟨"a", 1, 2⟩]⟩, some Err.formatError)
    ∧ Channel.load_json ⟨"c", []⟩
          (FileInput.content (Json.obj
            [("name", Json.str "x"), ("playlists", Json.arr [Json.int 0])]))
        = (⟨"x", []⟩, some Err.typeError) := by
  refine ⟨(C2_load_failure_partial_state ⟨"c", []⟩ ⟨"p", 1, [⟨"t", 10, 5⟩]⟩).1, ?_, ?_⟩
  · have h := (C2_load_failure_partial_state ⟨"c", []⟩
      ⟨"p", 1, [⟨"t", 10, 5⟩]⟩).2.2.2.1 [⟨"a", 1, 2⟩] []
    simpa using h
  · exact (C2_load_failure_partial_state ⟨"c", []⟩ ⟨"p", 1, [⟨"t", 10, 5⟩]⟩).2.2.2.2
      [("name", Json.str "x"), ("playlists", Json.arr [Json.int 0])]
      "x" [Json.int 0] Err.typeError rfl rfl rfl

/-! ## C5 -/

/-- C5: `Playlist.remove_video` with any integer index outside
`[0, length)` — negative indices included — leaves the playlist entirely
unchanged (and, being total, signals no error); with an index inside the
range it removes exactly the element at that position, keeping all other
elements in their relative order and the name and id untouched. -/
theorem C5_remove_video_policy (pl : Playlist) (index : Int) :
    (¬ (0 ≤ index ∧ index < (pl.videos.length : Int)) →
        pl.remove_video index = pl)
    ∧ (0 ≤ index → index < (pl.videos.length : Int) →
        pl.remove_video index
          = ⟨pl.playListName, pl.plID,
              pl.videos.take index.toNat ++ pl.videos.drop (index.toNat + 1)⟩) := by
  constructor
  · intro h
    simp [Playlist.remove_video, h]
  · intro h1 h2
    simp [Playlist.remove_video, h1, h2, List.eraseIdx_eq_take_drop_succ]

/-- C5 witness: out-of-range (5) and negative (-1) indices on a concrete
three-video playlist are no-ops; index 1 removes exactly the middle
element. -/
theorem C5_remove_video_witness :
    Playlist.remove_video ⟨"p", 1, [⟨"a", 1, 1⟩, ⟨"b", 2, 2⟩, ⟨"c", 3, 3⟩]⟩ 5
        = ⟨"p", 1, [⟨"a", 1, 1⟩, ⟨"b", 2, 2⟩, ⟨"c", 3, 3⟩]⟩
    ∧ Playlist.remove_video ⟨"p", 1, [⟨"a", 1, 1⟩, ⟨"b", 2, 2⟩, ⟨"c", 3, 3⟩]⟩ (-1)
        = ⟨"p", 1, [⟨"a", 1, 1⟩, ⟨"b", 2, 2⟩, ⟨"c", 3, 3⟩]⟩
    ∧ Playlist.remove_video ⟨"p", 1, [⟨"a", 1, 1⟩, ⟨"b", 2, 2⟩, ⟨"c", 3, 3⟩]⟩ 1
        = ⟨"p", 1, [⟨"a", 1, 1⟩] ++ [⟨"c", 3, 3⟩]⟩ := by
  refine ⟨(C5_remove_video_policy _ 5).1 (by decide),
    (C5_remove_video_policy _ (-1)).1 (by decide), ?_⟩
  have h := (C5_remove_video_policy
    ⟨"p", 1, [⟨"a", 1, 1⟩, ⟨"b", 2, 2⟩, ⟨"c", 3, 3⟩]⟩ 1).2 (by decide) (by decide)
  simpa using h

/-! ## C6 -/

/-- C6 counterexample: the delete-playlist command is claimed never to
raise and to leave the sequence unchanged for out-of-range and negative
indices, but on a one-playlist channel index 5 raises `IndexError` and
index -1 deletes the last playlist. -/
theorem C6_delete_playlist_counterexample :
    App.delete_playlist ⟨"c", [⟨"p", 1, []⟩]⟩ (some 5) = Except.error Err.indexError
    ∧ App.delete_playlist ⟨"c", [⟨"p", 1, []⟩]⟩ (some (-1)) = Except.ok ⟨"c", []⟩ := by
  constructor <;> rfl

/-- C6 (amended): with no selection the command is a guarded no-op; a
selected index in `[0, length)` removes the playlist at that position; the
unguarded `del` gives Python list semantics for other indices, so an index
in `[-length, 0)` removes from the end and any other index raises
`IndexError`. -/
theorem C6_delete_playlist_behavior (ch : Channel) (i : Int) :
    App.delete_playlist ch none = Except.ok ch
    ∧ (0 ≤ i → i < (ch.playlists.length : Int) →
        App.delete_playlist ch (some i)
          = Except.ok { ch with playlists := ch.playlists.eraseIdx i.toNat })
    ∧ (-(ch.playlists.length : Int) ≤ i → i < 0 →
        App.delete_playlist ch (some i)
          = Except.ok { ch with
              playlists := ch.playlists.eraseIdx (i + ch.playlists.length).toNat })
    ∧ ((i < -(ch.playlists.length : Int) ∨ (ch.playlists.length : Int) ≤ i) →
        App.delete_playlist ch (some i) = Except.error Err.indexError) := by
  refine ⟨rfl, ?_, ?_, ?_⟩
  · intro h1 h2
    have hc : 0 ≤ i ∧ i < (ch.playlists.length : Int) := ⟨h1, h2⟩
    simp [App.delete_playlist, pyDelete, hc]
  · intro h1 h2
    have hn : ¬ (0 ≤ i ∧ i < (ch.playlists.length : Int)) := by omega
    have hc : -(ch.playlists.length : Int) ≤ i ∧ i < 0 := ⟨h1, h2⟩
    simp [App.delete_playlist, pyDelete, hn, hc]
  · intro h
    have hn1 : ¬ (0 ≤ i ∧ i < (ch.playlists.length : Int)) := by omega
    have hn2 : ¬ (-(ch.playlists.length : Int) ≤ i ∧ i < 0) := by omega
    simp [App.delete_playlist, pyDelete, hn1, hn2]

/-- C6 witness: the amended statement evaluated on a concrete two-playlist
channel at indices 0 (in range), -1 (from the end), 7 (raises) and with no
selection. -/
theorem C6_delete_playlist_witness :
    App.delete_playlist ⟨"c", [⟨"p", 1, []⟩, ⟨"q", 2, []⟩]⟩ none
        = Except.ok ⟨"c", [⟨"p", 1, []⟩, ⟨"q", 2, []⟩]⟩
    ∧ App.delete_playlist ⟨"c", [⟨"p", 1, []⟩, ⟨"q", 2, []⟩]⟩ (some 0)
        = Except.ok ⟨"c", [⟨"q", 2, []⟩]⟩
    ∧ App.delete_playlist ⟨"c", [⟨"p", 1, []⟩, ⟨"q", 2, []⟩]⟩ (some (-1))
        = Except.ok ⟨"c", [⟨"p", 1, []⟩]⟩
    ∧ App.delete_playlist ⟨"c", [⟨"p", 1, []⟩, ⟨"q", 2, []⟩]⟩ (some 7)
        = Except.error Err.indexError := by
  refine ⟨(C6_delete_playlist_behavior ⟨"c", [⟨"p", 1, []⟩, ⟨"q", 2, []⟩]⟩ 0).1, ?_, ?_,
    (C6_delete_playlist_behavior ⟨"c", [⟨"p", 1, []⟩, ⟨"q", 2, []⟩]⟩ 7).2.2.2
      (Or.inr (by decide))⟩
  · have h := (C6_delete_playlist_behavior ⟨"c", [⟨"p", 1, []⟩, ⟨"q", 2, []⟩]⟩ 0).2.1
      (by decide) (by decide)
    simpa using h
  · have h := (C6_delete_playlist_behavior ⟨"c", [⟨"p", 1, []⟩, ⟨"q", 2, []⟩]⟩ (-1)).2.2.1
      (by decide) (by decide)
    simpa using h

/-! ## C7 -/

/-- A failed scan means no playlist name matches the lowercased query. -/
theorem searchLoop_eq_none (ls : List Playlist) (q : String)
    (h : searchLoop ls q = none) :
    ∀ pl ∈ ls, pyLower pl.playListName ≠ q := by
  induction ls with
  | nil => intro pl hm; cases hm
  | cons a rest ih =>
      intro pl hm
      by_cases ha : pyLower a.playListName = q
      · simp only [searchLoop, if_pos ha] at h
        cases h
      · simp only [searchLoop, if_neg ha] at h
        rcases List.mem_cons.mp hm with h1 | h2
        · subst h1; exact ha
        · exact ih h pl h2

/-- A successful scan returns a matching playlist preceded only by
non-matching ones. -/
theorem searchLoop_eq_some (ls : List Playlist) (q : String) (pl : Playlist)
    (h : searchLoop ls q = some pl) :
    pyLower pl.playListName = q
    ∧ ∃ l1 l2, ls = l1 ++ pl :: l2 ∧ ∀ p ∈ l1, pyLower p.playListName ≠ q := by
  induction ls with
  | nil => cases h
  | cons a rest ih =>
      by_cases ha : pyLower a.playListName = q
      · simp only [searchLoop, if_pos ha] at h
        injection h with h1
        subst h1
        exact ⟨ha, [], rest, rfl, by intro p hp; cases hp⟩
      · simp only [searchLoop, if_neg ha] at h
        obtain ⟨hmatch, l1, l2, heq, hall⟩ := ih h
        refine ⟨hmatch, a :: l1, l2, by rw [heq]; rfl, ?_⟩
        intro p hp
        rcases List.mem_cons.mp hp with h1 | h2
        · subst h1; exact ha
        · exact hall p h2

/-- C7: `Channel.search_playlist` scans the playlist sequence in order for
a case-insensitive exact name match: a `none` result means no playlist
name matches the lowercased query, and a `some pl` result means `pl`
matches and every playlist before it in the sequence does not — so of two
names differing only in case the earlier one wins. -/
theorem C7_search_playlist_first_match (ch : Channel) (q : String) :
    (Channel.search_playlist ch q = none →
        ∀ pl ∈ ch.playlists, pyLower pl.playListName ≠ pyLower q)
    ∧ (∀ pl, Channel.search_playlist ch q = some pl →
        pyLower pl.playListName = pyLower q
        ∧ ∃ l1 l2, ch.playlists = l1 ++ pl :: l2
            ∧ ∀ p ∈ l1, pyLower p.playListName ≠ pyLower q) := by
  constructor
  · intro h
    exact searchLoop_eq_none ch.playlists (pyLower q) h
  · intro pl h
    exact searchLoop_eq_some ch.playlists (pyLower q) pl h

/-- C7 witness: searching for "Music" on a channel holding "music" before
"Music" finds the earlier, lowercase-named playlist, preceded by no
match. -/
theorem C7_search_playlist_witness :
    pyLower (Playlist.mk "music" 1 []).playListName = pyLower "Music"
    ∧ ∃ l1 l2,
        (Channel.mk "c" [⟨"music", 1, []⟩, ⟨"Music", 2, []⟩]).playlists
          = l1 ++ (⟨"music", 1, []⟩ : Playlist) :: l2
        ∧ ∀ p ∈ l1, pyLower p.playListName ≠ pyLower "Music" :=
  (C7_search_playlist_first_match ⟨"c", [⟨"music", 1, []⟩, ⟨"Music", 2, []⟩]⟩
    "Music").2 ⟨"music", 1, []⟩ (by decide)

/-! ## C8 -/

/-- C8: `Channel.load_json` accepts a document without a top-level `name`
key, keeping the current channel name, and accepts a document without a
top-level `playlists` key, setting the playlist sequence to empty — while
a syntactically malformed document still raises a format error before any
state change. -/
theorem C8_load_json_lenient (ch : Channel) (fields : List (String × Json)) :
    (jlookup "name" fields = none →
        ∀ pls l, jlookup "playlists" fields = some (Json.arr pls) →
          mapDecode Playlist.from_dict pls = Except.ok l →
          Channel.load_json ch (FileInput.content (Json.obj fields))
            = ({ ch with playlists := l }, none))
    ∧ (∀ nm, jlookup "name" fields = some (Json.str nm) →
        jlookup "playlists" fields = none →
        Channel.load_json ch (FileInput.content (Json.obj fields))
          = (⟨nm, []⟩, none))
    ∧ Channel.load_json ch FileInput.malformed = (ch, some Err.formatError) := by
  refine ⟨?_, ?_, rfl⟩
  · intro h1 pls l h2 h3
    simp [Channel.load_json, getNameField, getPlaylistsField, h1, h2, h3, asArr]
  · intro nm h1 h2
    simp [Channel.load_json, getNameField, getPlaylistsField, h1, h2, asStr, mapDecode]

/-- C8 witness: loading a document with only a `playlists` key keeps the
channel name, and loading a document with only a `name` key empties the
playlist sequence; a malformed document errors leaving the channel as it
was. -/
theorem C8_load_json_lenient_witness :
    Channel.load_json ⟨"cur", [⟨"old", 1, []⟩]⟩
        (FileInput.content (Json.obj
          [("playlists", Json.arr [Playlist.to_dict ⟨"x", 2, []⟩])]))
      = (⟨"cur", [⟨"x", 2, []⟩]⟩, none)
    ∧ Channel.load_json ⟨"cur", [⟨"old", 1, []⟩]⟩
        (FileInput.content (Json.obj [("name", Json.str "fresh")]))
      = (⟨"fresh", []⟩, none)
    ∧ Channel.load_json ⟨"cur", [⟨"old", 1, []⟩]⟩ FileInput.malformed
      = (⟨"cur", [⟨"old", 1, []⟩]⟩, some Err.formatError) := by
  refine ⟨?_, ?_, (C8_load_json_lenient ⟨"cur", [⟨"old", 1, []⟩]⟩ []).2.2⟩
  · have h := (C8_load_json_lenient ⟨"cur", [⟨"old", 1, []⟩]⟩
      [("playlists", Json.arr [Playlist.to_dict ⟨"x", 2, []⟩])]).1 rfl
      [Playlist.to_dict ⟨"x", 2, []⟩] [⟨"x", 2, []⟩] rfl
      (mapDecode_to_dict [⟨"x", 2, []⟩])
    simpa using h
  · exact (C8_load_json_lenient ⟨"cur", [⟨"old", 1, []⟩]⟩
      [("name", Json.str "fresh")]).2.1 "fresh" rfl rfl

/-! ## C9 -/

/-- C9: for a video with non-negative duration, the rendered text is
`"<title> — <formatted duration> — <views> views"`, where the duration
shows whole minutes and remaining seconds when it is at least 60 and
seconds only otherwise. -/
theorem C9_video_render_format (v : Video) (h : 0 ≤ v.duration) :
    (60 ≤ v.duration →
      Video.str v = v.title ++ " — "
        ++ (toString (v.duration / 60) ++ "m" ++ toString (v.duration % 60) ++ "s")
        ++ " — " ++ toString v.views ++ " views")
    ∧ (v.duration < 60 →
      Video.str v = v.title ++ " — " ++ (toString v.duration ++ "s")
        ++ " — " ++ toString v.views ++ " views") := by
  constructor
  · intro h60
    have hne : ¬ v.duration / 60 = 0 := by omega
    simp [Video.str, hne]
  · intro h60
    have h0 : v.duration / 60 = 0 := by omega
    have hm : v.duration % 60 = v.duration := by omega
    simp [Video.str, h0, hm]

/-- C9 witness: the formatting examples 125 → "2m5s", 45 → "45s" and
0 → "0s", each inside the full rendered string. -/
theorem C9_video_render_witness :
    Video.str ⟨"Intro", 125, 10⟩ = "Intro — 2m5s — 10 views"
    ∧ Video.str ⟨"A", 45, 1⟩ = "A — 45s — 1 views"
    ∧ Video.str ⟨"B", 0, 2⟩ = "B — 0s — 2 views" := by
  refine ⟨?_, ?_, ?_⟩
  · rw [(C9_video_render_format ⟨"Intro", 125, 10⟩ (by decide)).1 (by decide)]
    rfl
  · rw [(C9_video_render_format ⟨"A", 45, 1⟩ (by decide)).2 (by decide)]
    rfl
  · rw [(C9_video_render_format ⟨"B", 0, 2⟩ (by decide)).2 (by decide)]
    rfl

/-! ## C10 -/

/-- Decoding a list holding a failing record fails. -/
theorem mapDecode_error_of_mem {f : Json → Except Err α} {l : List Json} {j : Json}
    {e : Err} (hm : j ∈ l) (hf : f j = Except.error e) :
    ∃ e2, mapDecode f l = Except.error e2 := by
  induction l with
  | nil => cases hm
  | cons a rest ih =>
      rcases List.mem_cons.mp hm with h1 | h2
      · subst h1
        exact ⟨e, by simp [mapDecode, hf]⟩
      · cases ha : f a with
        | error e3 => exact ⟨e3, by simp [mapDecode, ha]⟩
        | ok x =>
            obtain ⟨e2, h2x⟩ := ih h2
            exact ⟨e2, by simp [mapDecode, ha, h2x]⟩

/-- C10: `Playlist.from_dict` raises a key-lookup error on a document
without `playListName` and on one without `plID`, while a document lacking
only `videos` decodes to a playlist with an empty video sequence; and
`Channel.load_json` fails on any channel document whose playlist array
holds an entry `from_dict` rejects. -/
theorem C10_from_dict_strict_keys (d : List (String × Json)) :
    (jlookup "playListName" d = none →
        Playlist.from_dict (Json.obj d) = Except.error (Err.keyError "playListName"))
    ∧ (∀ nm, jlookup "playListName" d = some (Json.str nm) →
        jlookup "plID" d = none →
        Playlist.from_dict (Json.obj d) = Except.error (Err.keyError "plID"))
    ∧ (∀ nm plid, jlookup "playListName" d = some (Json.str nm) →
        jlookup "plID" d = some (Json.int plid) →
        jlookup "videos" d = none →
        Playlist.from_dict (Json.obj d) = Except.ok ⟨nm, plid, []⟩)
    ∧ (∀ ch fields pls j e, jlookup "playlists" fields = some (Json.arr pls) →
        j ∈ pls → Playlist.from_dict j = Except.error e →
        (Channel.load_json ch (FileInput.content (Json.obj fields))).2 ≠ none) := by
  refine ⟨?_, ?_, ?_, ?_⟩
  · intro h1
    simp [Playlist.from_dict, getItem, h1]
  · intro nm h1 h2
    simp [Playlist.from_dict, getItem, h1, h2, asStr]
  · intro nm plid h1 h2 h3
    simp [Playlist.from_dict, getItem, h1, h2, h3, asStr, asInt, asArr, mapDecode]
  · intro ch fields pls j e h1 hm hf
    obtain ⟨e2, h2⟩ := mapDecode_error_of_mem hm hf
    cases hgn : getNameField fields ch.name with
    | error e3 => simp [Channel.load_json, hgn]
    | ok nm => simp [Channel.load_json, hgn, getPlaylistsField, h1, asArr, h2]

/-- C10 witness: concrete one-field documents exercising each branch, and
a channel document whose single playlist entry lacks `playListName`. -/
theorem C10_from_dict_strict_keys_witness :
    Playlist.from_dict (Json.obj [("plID", Json.int 1)])
        = Except.error (Err.keyError "playListName")
    ∧ Playlist.from_dict (Json.obj [("playListName", Json.str "x")])
        = Except.error (Err.keyError "plID")
    ∧ Playlist.from_dict (Json.obj [("playListName", Json.str "x"), ("plID", Json.int 2)])
        = Except.ok ⟨"x", 2, []⟩
    ∧ (Channel.load_json ⟨"c", []⟩ (FileInput.content (Json.obj
          [("playlists", Json.arr [Json.obj [("plID", Json.int 1)]])]))).2 ≠ none :=
  ⟨(C10_from_dict_strict_keys [("plID", Json.int 1)]).1 rfl,
   (C10_from_dict_strict_keys [("playListName", Json.str "x")]).2.1 "x" rfl rfl,
   (C10_from_dict_strict_keys
      [("playListName", Json.str "x"), ("plID", Json.int 2)]).2.2.1 "x" 2 rfl rfl rfl,
   (C10_from_dict_strict_keys []).2.2.2 ⟨"c", []⟩
      [("playlists", Json.arr [Json.obj [("plID", Json.int 1)]])]
      [Json.obj [("plID", Json.int 1)]] (Json.obj [("plID", Json.int 1)])
      (Err.keyError "playListName") rfl (by simp) rfl⟩
